import Mathlib

/-!
Verification of the Muhtasim-Baby repository: a shallow embedding of the
two demo front-ends (src/app.py and src/web/Space.py) and proofs of the
specification's claims about them.

The router `process` from src/app.py takes the Gradio form values: the
textbox value and the audio filepath. Gradio passes the filepath as `None`
when no file is uploaded, and the textbox as a (possibly empty) string, so
both arguments are modelled as `Option String`, with Python truthiness
(`None` and `""` are falsy) deciding the branches.
-/

namespace MuhtasimBaby

/-- Python truthiness of an optional string value: `None` and the empty
string are falsy, every other string is truthy (the `if audio_path:` and
`if text:` tests in src/app.py). -/
def pyTruthy : Option String → Bool
  | none => false
  | some s => s != ""

/-- Python `str()` of an optional string, as an f-string interpolates it:
`None` renders as the text "None", a string renders as itself. -/
def pyStr : Option String → String
  | none => "None"
  | some s => s

/-- The router `process` from src/app.py (lines 8-19): if the audio path is
truthy return the audio message, else if the text is truthy echo it, else
return the fixed fallback message. -/
def process (text audio_path : Option String) : String :=
  if pyTruthy audio_path then "Received audio file at: " ++ pyStr audio_path
  else if pyTruthy text then "Echo: " ++ pyStr text
  else "Please provide text input or upload an audio file."

/-- Scan the tail of a decimal digit run as Python `int()` accepts it: any
further ASCII digits, with a single underscore allowed only between two
digits (no trailing underscore, no doubled underscore). -/
def digitsTail : List Char → Bool
  | [] => true
  | c :: cs =>
    if c.isDigit then digitsTail cs
    else if c = '_' then
      match cs with
      | [] => false
      | d :: _ => d.isDigit && digitsTail cs
    else false

/-- Numeric value of a digit run, skipping the underscore separators. -/
def digitsVal (l : List Char) : Nat :=
  l.foldl (fun acc c => if c.isDigit then 10 * acc + (c.toNat - 48) else acc) 0

/-- Parse an unsigned decimal digit run as Python `int()` does: nonempty,
starting with a digit, underscores only between digits. -/
def pyUnsigned (l : List Char) : Option Nat :=
  match l with
  | [] => none
  | c :: cs => if c.isDigit && digitsTail cs then some (digitsVal (c :: cs)) else none

/-- Drop leading whitespace characters from a character list. -/
def stripWs : List Char → List Char
  | [] => []
  | c :: cs => if c.isWhitespace then stripWs cs else c :: cs

/-- Drop leading and trailing whitespace from a character list. -/
def stripWsBoth (l : List Char) : List Char :=
  (stripWs (stripWs l).reverse).reverse

/-- Python `int(s)` applied to a string: strip surrounding whitespace, allow
one leading sign, then a decimal digit run; `none` models the `ValueError`
raised on any other shape (in particular on the empty string). -/
def pyInt (s : String) : Option Int :=
  match stripWsBoth s.toList with
  | '+' :: rest => (pyUnsigned rest).map (fun n => (n : Int))
  | '-' :: rest => (pyUnsigned rest).map (fun n => -(n : Int))
  | l => (pyUnsigned l).map (fun n => (n : Int))

/-- A process environment: a partial map from variable names to values. -/
abbrev Env : Type := String → Option String

/-- Python `os.environ.get(key, default)`: the variable's value when the
variable is set (even to the empty string), the default otherwise. -/
def environGet (env : Env) (key default : String) : String :=
  (env key).getD default

/-- The port expression of src/app.py line 35,
`int(os.environ.get("PORT", os.environ.get("HF_SPACE_PORT", 7860)))`.
The inner default is the int literal 7860 in the source, which `int()` maps
to itself, so it is modelled by the decimal string "7860". The result is
`none` exactly when `int()` raises `ValueError`. -/
def resolvePort (env : Env) : Option Int :=
  pyInt (environGet env "PORT" (environGet env "HF_SPACE_PORT" "7860"))

/-- The `__main__` startup of src/app.py: when the port expression parses,
the server is launched bound to "0.0.0.0" on the parsed port
(`demo.launch(server_name="0.0.0.0", server_port=port)`); when `int()`
raises, startup aborts before any launch, modelled as `none`. -/
def mainLaunch (env : Env) : Option (String × Int) :=
  (resolvePort env).map (fun p => ("0.0.0.0", p))

/-- Shape of the `gr.HTML` component built by `create_interface` in
src/web/Space.py: its rendered value, label, and visibility flag. -/
structure GrHTML where
  value : String
  label : Option String
  visible : Bool

/-- The fixed HTML document assigned to `html_content` inside
`create_interface` in src/web/Space.py. -/
def html_content : String := "\n    <!DOCTYPE html>\n    <html>\n    <head>\n        <title>Conscious AI Learning System</title>\n        <meta name=\"viewport\" content=\"width=device-width, initial-scale=1.0\">\n        <style>\n            body \x7b\n                margin: 0;\n                padding: 20px;\n                font-family: -apple-system, BlinkMacSystemFont, \x27Segoe UI\x27, sans-serif;\n                background: linear-gradient(135deg, #667eea 0%, #764ba2 100%);\n                color: white;\n                min-height: 100vh;\n            \x7d\n            .container \x7b\n                max-width: 800px;\n                margin: 0 auto;\n                text-align: center;\n            \x7d\n            .launch-button \x7b\n                display: inline-block;\n                padding: 20px 40px;\n                background: rgba(255, 255, 255, 0.2);\n                border: 2px solid rgba(255, 255, 255, 0.3);\n                border-radius: 12px;\n                color: white;\n                text-decoration: none;\n                font-size: 18px;\n                font-weight: 600;\n                margin: 20px;\n                transition: all 0.3s ease;\n            \x7d\n            .launch-button:hover \x7b\n                background: rgba(255, 255, 255, 0.3);\n                transform: translateY(-2px);\n            \x7d\n            .description \x7b\n                margin: 20px 0;\n                padding: 20px;\n                background: rgba(0, 0, 0, 0.2);\n                border-radius: 12px;\n                text-align: left;\n            \x7d\n            .requirements \x7b\n                background: rgba(255, 255, 255, 0.1);\n                padding: 15px;\n                border-radius: 8px;\n                margin: 20px 0;\n                text-align: left;\n            \x7d\n            .emoji \x7b\n                font-size: 24px;\n                margin-bottom: 10px;\n            \x7d\n        </style>\n    </head>\n    <body>\n        <div class=\"container\">\n            <h1>🤖 Conscious AI Learning System</h1>\n\n            <div class=\"description\">\n                <div class=\"emoji\">🧠</div>\n                <h3>About This Project</h3>\n                <p>A virtual AI being that learns, thinks, feels, and creates from scratch. Starting with zero knowledge, the AI develops through curiosity-driven interaction with its 3D environment.</p>\n\n                <div class=\"emoji\">🌟</div>\n                <h3>Key Features</h3>\n                <ul style=\"text-align: left;\">\n                    <li>🧠 Authentic learning from scratch (zero knowledge)</li>\n                    <li>💬 Language acquisition through interaction</li>\n                    <li>😊 Emergent emotions from neural dynamics</li>\n                    <li>🔍 Curiosity-driven exploration</li>\n                    <li>🧠 Human-like memory with consolidation</li>\n                    <li>👁 Real-time 3D visualization</li>\n                </ul>\n\n                <div class=\"emoji\">🎮</div>\n                <h3>How to Use</h3>\n                <ol style=\"text-align: left;\">\n                    <li>Watch the AI explore randomly at first</li>\n                    <li>Talk to the AI (it won\x27t understand initially)</li>\n                    <li>Name objects when the AI is near them</li>\n                    <li>Add new objects to create learning experiences</li>\n                    <li>Monitor AI development in real-time</li>\n                </ol>\n            </div>\n\n            <div class=\"requirements\">\n                <h3>⚠️ Requirements</h3>\n                <ul style=\"text-align: left;\">\n                    <li>Modern browser (Chrome, Firefox, Safari)</li>\n                    <li>WebGL support for 3D rendering</li>\n                    <li>4GB+ RAM recommended</li>\n                    <li>Works best on desktop, mobile supported</li>\n                </ul>\n            </div>\n\n            <a href=\"./app/\" class=\"launch-button\">\n                🚀 Launch Conscious AI\n            </a>\n\n            <div style=\"margin-top: 30px; opacity: 0.8; font-size: 14px;\">\n                <p><strong>Note:</strong> This system requires significant computational resources. Performance may vary based on your device capabilities.</p>\n            </div>\n        </div>\n\n        <script>\n            // Check if WebGL is supported\n            function checkWebGLSupport() \x7b\n                const canvas = document.createElement(\x27canvas\x27);\n                const gl = canvas.getContext(\x27webgl\x27) || canvas.getContext(\x27experimental-webgl\x27);\n                return !!gl;\n            \x7d\n\n            if (!checkWebGLSupport()) \x7b\n                document.querySelector(\x27.container\x27).innerHTML += \x60\n                    <div style=\"background: rgba(255, 0, 0, 0.1); padding: 20px; border-radius: 8px; margin: 20px 0;\">\n                        <h3>⚠️ WebGL Not Supported</h3>\n                        <p>Your browser doesn\x27t support WebGL, which is required for 3D rendering and AI computation.</p>\n                        <p>Please try using a modern browser like Chrome, Firefox, or Safari.</p>\n                    </div>\n                \x60;\n            \x7d\n        </script>\n    </body>\n    </html>\n    "

/-- The `create_interface` function of src/web/Space.py: it takes no inputs
and returns `gr.HTML(value=html_content, label="Conscious AI Learning
System", visible=False)`. -/
def create_interface (_u : Unit) : GrHTML :=
  { value := html_content
  , label := some "Conscious AI Learning System"
  , visible := false }

theorem pyTruthy_some_iff (s : String) : pyTruthy (some s) = true ↔ s ≠ "" := by
  simp [pyTruthy]

/-- Claim C1: for every input where the audio path is a non-empty string,
whatever the text value, the router output is
"Received audio file at: " followed by the audio path. -/
theorem C1_audio_branch (t : Option String) (a : String) (h : a ≠ "") :
    process t (some a) = "Received audio file at: " ++ a := by
  simp [process, pyTruthy, pyStr, h]

/-- Witness for C1 at the concrete input text = "hi",
audioPath = "/tmp/a.wav". -/
theorem C1_audio_branch_witness :
    process (some "hi") (some "/tmp/a.wav") = "Received audio file at: /tmp/a.wav" :=
  C1_audio_branch (some "hi") "/tmp/a.wav" (by decide)

/-- Claim C2: for every input where the audio path is empty or absent and
the text is a non-empty string, the router output is "Echo: " followed by
the text. -/
theorem C2_text_branch (t : String) (a : Option String) (ht : t ≠ "")
    (ha : a = none ∨ a = some "") :
    process (some t) a = "Echo: " ++ t := by
  rcases ha with rfl | rfl <;> simp [process, pyTruthy, pyStr, ht]

/-- Witness for C2 at the concrete input text = "hello", audioPath absent. -/
theorem C2_text_branch_witness :
    process (some "hello") none = "Echo: hello" :=
  C2_text_branch "hello" none (by decide) (Or.inl rfl)

/-- Claim C3: when both the audio path and the text are empty or absent, the
router output is exactly the fixed fallback message. -/
theorem C3_fallback (t a : Option String) (ht : t = none ∨ t = some "")
    (ha : a = none ∨ a = some "") :
    process t a = "Please provide text input or upload an audio file." := by
  rcases ht with rfl | rfl <;> rcases ha with rfl | rfl <;> simp [process, pyTruthy]

/-- Witness for C3 at the concrete input text = "", audioPath = "". -/
theorem C3_fallback_witness :
    process (some "") (some "") = "Please provide text input or upload an audio file." :=
  C3_fallback (some "") (some "") (Or.inr rfl) (Or.inr rfl)

/-- Claim C4: precedence law: when both the audio path and the text are
non-empty strings, the router output follows the audio branch. -/
theorem C4_audio_precedence (t a : String) (ht : t ≠ "") (ha : a ≠ "") :
    process (some t) (some a) = "Received audio file at: " ++ a := by
  simp [process, pyTruthy, pyStr, ha]

/-- Witness for C4 at the concrete input text = "hi",
audioPath = "/tmp/a.wav". -/
theorem C4_audio_precedence_witness :
    process (some "hi") (some "/tmp/a.wav") = "Received audio file at: /tmp/a.wav" :=
  C4_audio_precedence "hi" "/tmp/a.wav" (by decide) (by decide)

/-- Claim C5: the router is total: on every input it returns one of the
three message forms, and no error branch exists. -/
theorem C5_router_total (t a : Option String) :
    process t a = "Received audio file at: " ++ pyStr a ∨
      process t a = "Echo: " ++ pyStr t ∨
      process t a = "Please provide text input or upload an audio file." := by
  unfold process
  rcases Bool.eq_false_or_eq_true (pyTruthy a) with h1 | h1 <;>
    rcases Bool.eq_false_or_eq_true (pyTruthy t) with h2 | h2 <;>
      simp [h1, h2]

/-- Claim C6: port resolution precedence: the launched port is the integer
value of PORT when PORT is set, else the integer value of HF_SPACE_PORT when
that is set, else the literal default 7860, with the server bound to
"0.0.0.0". -/
theorem C6_port_resolution (env : Env) (v : String) (n : Int) :
    (env "PORT" = some v → pyInt v = some n →
      mainLaunch env = some ("0.0.0.0", n)) ∧
    (env "PORT" = none → env "HF_SPACE_PORT" = some v → pyInt v = some n →
      mainLaunch env = some ("0.0.0.0", n)) ∧
    (env "PORT" = none → env "HF_SPACE_PORT" = none →
      mainLaunch env = some ("0.0.0.0", 7860)) := by
  refine ⟨?_, ?_, ?_⟩
  · intro h hp
    simp [mainLaunch, resolvePort, environGet, h, hp]
  · intro h0 h1 hp
    simp [mainLaunch, resolvePort, environGet, h0, h1, hp]
  · intro h0 h1
    simp only [mainLaunch, resolvePort, environGet, h0, h1, Option.getD_none]
    decide

/-- Environment with PORT set to "9000" and nothing else. -/
def envPortOnly : Env := fun k => if k = "PORT" then some "9000" else none

/-- Environment with HF_SPACE_PORT set to "8080" and nothing else. -/
def envHfOnly : Env := fun k => if k = "HF_SPACE_PORT" then some "8080" else none

/-- Empty environment. -/
def envEmpty : Env := fun _ => none

/-- Witness for C6 at the three concrete environments of the claim:
PORT="9000" gives 9000, HF_SPACE_PORT="8080" alone gives 8080, neither
gives 7860. -/
theorem C6_port_resolution_witness :
    mainLaunch envPortOnly = some ("0.0.0.0", 9000) ∧
      mainLaunch envHfOnly = some ("0.0.0.0", 8080) ∧
      mainLaunch envEmpty = some ("0.0.0.0", 7860) :=
  ⟨(C6_port_resolution envPortOnly "9000" 9000).1 (by decide) (by decide),
   (C6_port_resolution envHfOnly "8080" 8080).2.1 (by decide) (by decide) (by decide),
   (C6_port_resolution envEmpty "7860" 7860).2.2 (by decide) (by decide)⟩

/-- Claim C7: whenever the selected port variable (PORT, or HF_SPACE_PORT
when PORT is unset) holds a value that is not a valid integer literal, the
`int()` parse fails and startup aborts: the server is never launched and no
fallback port is tried. -/
theorem C7_bad_port_fatal (env : Env) (v : String)
    (hsel : env "PORT" = some v ∨ (env "PORT" = none ∧ env "HF_SPACE_PORT" = some v))
    (hbad : pyInt v = none) :
    mainLaunch env = none := by
  rcases hsel with h | ⟨h0, h1⟩
  · simp [mainLaunch, resolvePort, environGet, h, hbad]
  · simp [mainLaunch, resolvePort, environGet, h0, h1, hbad]

/-- Environment with PORT set to the non-numeric string "abc". -/
def envBadPort : Env := fun k => if k = "PORT" then some "abc" else none

/-- Witness for C7 at the concrete environment PORT="abc": startup fails
and nothing is launched. -/
theorem C7_bad_port_fatal_witness : mainLaunch envBadPort = none :=
  C7_bad_port_fatal envBadPort "abc" (Or.inl (by decide)) (by decide)

/-- Claim C8: the router is deterministic: two calls with identical
arguments give identical outputs; it is a pure function of its two
arguments. -/
theorem C8_deterministic (t1 a1 t2 a2 : Option String)
    (ht : t1 = t2) (ha : a1 = a2) :
    process t1 a1 = process t2 a2 := by
  rw [ht, ha]

/-- Witness for C8 at the concrete input text = "hello", audioPath absent,
repeated twice. -/
theorem C8_deterministic_witness :
    process (some "hello") none = process (some "hello") none :=
  C8_deterministic (some "hello") none (some "hello") none rfl rfl

/-- Claim C9: the static info page component takes no inputs and always
returns the same constant component whose content is the fixed HTML
document. -/
theorem C9_static_page (u v : Unit) :
    (create_interface u).value = html_content ∧
      (create_interface u).visible = false ∧
      create_interface u = create_interface v :=
  ⟨rfl, rfl, rfl⟩

/-- Claim C10: when PORT is set to the empty string, resolution does not
fall back to HF_SPACE_PORT or to 7860: `int("")` fails and startup aborts. -/
theorem C10_empty_port_fatal (env : Env) (h : env "PORT" = some "") :
    mainLaunch env = none := by
  simp only [mainLaunch, resolvePort, environGet, h, Option.getD_some]
  decide

/-- Environment with PORT set to the empty string and HF_SPACE_PORT set to
the perfectly good value "8080", showing the fallback is still not taken. -/
def envEmptyPort : Env := fun k =>
  if k = "PORT" then some ""
  else if k = "HF_SPACE_PORT" then some "8080" else none

/-- Witness for C10 at the concrete environment PORT="",
HF_SPACE_PORT="8080": startup fails and nothing is launched. -/
theorem C10_empty_port_fatal_witness : mainLaunch envEmptyPort = none :=
  C10_empty_port_fatal envEmptyPort (by decide)

end MuhtasimBaby
